import Mathlib

/-!
Shallow embedding of the OpenLoRA Resource Orchestrator core, translated
definition-by-definition from the Go source:
  apps/orchestrator/internal/allocator/allocator.go   (GPU allocator)
  apps/orchestrator/internal/scheduler                (job queue, scheduler)

Modelling conventions:
* Go `time.Time` stamps are modelled as `Nat` ticks, threaded in as a `now`
  parameter where the source calls `time.Now()`.
* `generateID` / `generateJobID` derive ids from the wall clock; they are
  modelled as a fresh-id supply (`nextAllocID` counter for allocations, an
  explicit `freshID` parameter for jobs).  Nothing in the verified code
  depends on the shape of these ids.
* Go maps (`map[string]*Node` etc.) are association structures modelled as
  lists keyed by the id field, in iteration order; keys are assumed unique,
  as they are for a Go map.
* Pointer sharing between the scheduler's job registry and the heap (both
  hold the same `*Job`) is modelled by updating every occurrence of a job id
  in both structures whenever the source writes through the shared pointer.
* The `Job.index` heap back-index and the `Config map[string]interface` blob
  are omitted: in this source `index` is only ever written (never read, not
  even by `Cancel`), and `Config` is never consulted.
* Go `int` fields are modelled as `Int`.
-/

namespace OpenLoRA

/-- GPU mirrors allocator.GPU; `Ty` is the `Type` field (GPUType string tag). -/
structure GPU where
  ID : String
  NodeID : String
  Ty : String
  MemoryGB : Int
  Allocated : Bool
  JobID : String
  AllocAt : Nat
deriving DecidableEq, Repr, Inhabited

/-- Node mirrors allocator.Node. -/
structure Node where
  ID : String
  Address : String
  GPUs : List GPU
  TotalMem : Int
  UsedMem : Int
  TotalCPUs : Int
  UsedCPUs : Int
  Healthy : Bool
  LastPing : Nat
deriving DecidableEq, Repr, Inhabited

/-- Allocation mirrors allocator.Allocation. -/
structure Allocation where
  ID : String
  JobID : String
  NodeID : String
  GPUIDs : List String
  MemoryGB : Int
  CPUs : Int
  CreatedAt : Nat
deriving DecidableEq, Repr, Inhabited

/-- ResourceRequest mirrors allocator.ResourceRequest; `GPUType = ""` means
any type, as in the source. -/
structure ResourceRequest where
  GPUs : Int
  GPUType : String
  MemoryGB : Int
  CPUs : Int
  MaxWaitSecs : Int
deriving DecidableEq, Repr, Inhabited

/-- Quota mirrors allocator.Quota. -/
structure Quota where
  UserID : String
  MaxGPUs : Int
  MaxMemoryGB : Int
  UsedGPUs : Int
  UsedMemoryGB : Int
deriving DecidableEq, Repr, Inhabited

/-- GPUAllocator mirrors allocator.GPUAllocator (mutex omitted; state is
passed explicitly).  `nextAllocID` models the `generateID` fresh-id supply. -/
structure GPUAllocator where
  nodes : List Node
  allocations : List Allocation
  quotas : List Quota
  nextAllocID : Nat
deriving DecidableEq, Repr, Inhabited

/-- NewGPUAllocator: empty maps. -/
def NewGPUAllocator : GPUAllocator :=
  { nodes := [], allocations := [], quotas := [], nextAllocID := 0 }

/-- Map assignment `a.nodes[node.ID] = node` on the association list. -/
def insertNode : List Node → Node → List Node
  | [], n => [n]
  | m :: rest, n => if m.ID == n.ID then n :: rest else m :: insertNode rest n

/-- Map lookup `a.nodes[id]`. -/
def lookupNode (nodes : List Node) (id : String) : Option Node :=
  nodes.find? (fun n => n.ID == id)

/-- RegisterNode mirrors GPUAllocator.RegisterNode: sets Healthy, stamps
LastPing, and stores the record under its id (overwriting any previous
record with that id, exactly as the Go map assignment does). -/
def RegisterNode (a : GPUAllocator) (node : Node) (now : Nat) : GPUAllocator :=
  let node' := { node with Healthy := true, LastPing := now }
  { a with nodes := insertNode a.nodes node' }

/-- findAvailableGPUs mirrors GPUAllocator.findAvailableGPUs: unallocated
GPUs of the requested type (any type when the filter is `""`). -/
def findAvailableGPUs (node : Node) (req : ResourceRequest) : List GPU :=
  node.GPUs.filter (fun gpu => !gpu.Allocated && (req.GPUType == "" || gpu.Ty == req.GPUType))

/-- The fresh allocation id drawn from the supply (source: `generateID()`). -/
def allocFreshID (a : GPUAllocator) : String :=
  "alloc-" ++ toString a.nextAllocID

/-- One pass of the node loop in GPUAllocator.Allocate.  Skips unhealthy
nodes, skips nodes with fewer eligible GPUs than requested, and on the first
fitting node performs the commit: marks the first `req.GPUs` eligible GPUs
allocated, charges memory/CPUs to the node, and builds the Allocation
record.  Returns the updated node list and the allocation, or `none` when no
node fits.  (GPU ids within a node are assumed distinct, as they are for
real inventory; the source mutates the GPU structs through pointers.) -/
def allocateScan (jobID : String) (req : ResourceRequest) (now : Nat)
    (allocID : String) : List Node → Option (List Node × Allocation)
  | [] => none
  | node :: rest =>
    if node.Healthy = true ∧ req.GPUs ≤ ((findAvailableGPUs node req).length : Int) then
      let gpus := findAvailableGPUs node req
      let chosen := (gpus.take req.GPUs.toNat).map (fun g => g.ID)
      let newGPUs := node.GPUs.map (fun g =>
        if chosen.contains g.ID then
          { g with Allocated := true, JobID := jobID, AllocAt := now }
        else g)
      let node' := { node with
        GPUs := newGPUs
        UsedMem := node.UsedMem + req.MemoryGB
        UsedCPUs := node.UsedCPUs + req.CPUs }
      let alloc : Allocation :=
        { ID := allocID, JobID := jobID, NodeID := node.ID, GPUIDs := chosen
          MemoryGB := req.MemoryGB, CPUs := req.CPUs, CreatedAt := now }
      some (node' :: rest, alloc)
    else
      (allocateScan jobID req now allocID rest).map (fun p => (node :: p.1, p.2))

/-- The tail of GPUAllocator.Allocate after the quota pre-check: run the
node loop; on success store the allocation and charge the tenant quota
counters (when a quota record exists); otherwise fail. -/
def allocateCommit (a : GPUAllocator) (jobID userID : String)
    (req : ResourceRequest) (now : Nat) : Except String Allocation × GPUAllocator :=
  match allocateScan jobID req now (allocFreshID a) a.nodes with
  | some (nodes', alloc) =>
    (Except.ok alloc,
      { a with
        nodes := nodes'
        allocations := a.allocations ++ [alloc]
        quotas := a.quotas.map (fun q =>
          if q.UserID == userID then
            { q with UsedGPUs := q.UsedGPUs + req.GPUs
                     UsedMemoryGB := q.UsedMemoryGB + req.MemoryGB }
          else q)
        nextAllocID := a.nextAllocID + 1 })
  | none => (Except.error "no suitable node found", a)

/-- Allocate mirrors GPUAllocator.Allocate: GPU-count quota pre-check, then
the node loop.  The source checks only `quota.UsedGPUs+req.GPUs >
quota.MaxGPUs`; there is no memory-quota check and no node free-memory or
free-CPU check. -/
def Allocate (a : GPUAllocator) (jobID userID : String)
    (req : ResourceRequest) (now : Nat) : Except String Allocation × GPUAllocator :=
  match a.quotas.find? (fun q => q.UserID == userID) with
  | some quota =>
    if quota.MaxGPUs < quota.UsedGPUs + req.GPUs then
      (Except.error "quota exceeded: GPU limit", a)
    else
      allocateCommit a jobID userID req now
  | none => allocateCommit a jobID userID req now

/-- Release mirrors GPUAllocator.Release: look up the allocation and its
node, clear the listed GPUs' flags on that node, decrement the node's
used-memory/CPU counters, and delete the allocation record.  The source
never touches `a.quotas`. -/
def Release (a : GPUAllocator) (allocID : String) : Except String Unit × GPUAllocator :=
  match a.allocations.find? (fun al => al.ID == allocID) with
  | none => (Except.error "allocation not found", a)
  | some alloc =>
    match lookupNode a.nodes alloc.NodeID with
    | none => (Except.error "node not found", a)
    | some _ =>
      let nodes := a.nodes.map (fun n =>
        if n.ID == alloc.NodeID then
          { n with
            GPUs := n.GPUs.map (fun g =>
              if alloc.GPUIDs.contains g.ID then
                { g with Allocated := false, JobID := "" }
              else g)
            UsedMem := n.UsedMem - alloc.MemoryGB
            UsedCPUs := n.UsedCPUs - alloc.CPUs }
        else n)
      (Except.ok (),
        { a with
          nodes := nodes
          allocations := a.allocations.filter (fun al => !(al.ID == allocID)) })

/-- JobState mirrors the scheduler.JobState string enumeration; only these
eight values are ever constructed in the source. -/
inductive JobState
  | pending
  | queued
  | allocated
  | running
  | completed
  | failed
  | cancelled
  | retrying
deriving DecidableEq, Repr, Inhabited

/-- Job mirrors scheduler.Job.  `JobTy` is the `Type` field (JobType string
tag); `Alloc` is the `Allocation` pointer field.  The write-only heap
back-index and the never-read `Config` blob are omitted (see the header). -/
structure Job where
  ID : String
  UserID : String
  Name : String
  JobTy : String
  State : JobState
  Priority : Int
  Resources : ResourceRequest
  Alloc : Option Allocation
  RetryCount : Int
  MaxRetries : Int
  CreatedAt : Nat
  StartedAt : Option Nat
  CompletedAt : Option Nat
  Error : String
deriving DecidableEq, Repr, Inhabited

/-- JobQueue.Less: `pq[i].Priority > pq[j].Priority`.  Indices are always in
range at the call sites (container/heap maintains that); `getD` supplies an
unreachable default. -/
def lessFn (q : List Job) (i j : Nat) : Bool :=
  decide ((q.getD j default).Priority < (q.getD i default).Priority)

/-- JobQueue.Swap: exchange positions `i` and `j` (the index-field writes of
the source are omitted, the field being write-only). -/
def swapQ (q : List Job) (i j : Nat) : List Job :=
  (q.set i (q.getD j default)).set j (q.getD i default)

/-- container/heap `up`, written with a structural fuel argument so that it
computes by kernel reduction.  Each pass moves `j` to `(j-1)/2 < j`, so
`fuel = j` (as supplied by `heapUp`) is never exhausted before the loop's
own `j = 0` exit: when fuel reaches 0, `j` is already 0 and the Go loop
would return the same `q`. -/
def heapUpAux : Nat → List Job → Nat → List Job
  | 0, q, _ => q
  | fuel + 1, q, j =>
    if j = 0 then q
    else
      if lessFn q j ((j - 1) / 2) then heapUpAux fuel (swapQ q ((j - 1) / 2) j) ((j - 1) / 2)
      else q

/-- container/heap `up`: sift position `j` towards the root. -/
def heapUp (q : List Job) (j : Nat) : List Job :=
  heapUpAux j q j

/-- container/heap `down`, with a structural fuel argument.  Each pass moves
`i` to a child index `≥ i + 1`, so `fuel = n - i` (as supplied by
`heapDown`) is never exhausted before the loop's own `2*i+1 ≥ n` exit: when
fuel reaches 0, `i ≥ n` holds and the Go loop would return the same `q`. -/
def heapDownAux : Nat → List Job → Nat → Nat → List Job
  | 0, q, _, _ => q
  | fuel + 1, q, i, n =>
    if 2 * i + 1 < n then
      if 2 * i + 2 < n then
        if lessFn q (2 * i + 2) (2 * i + 1) then
          (if lessFn q (2 * i + 2) i then heapDownAux fuel (swapQ q i (2 * i + 2)) (2 * i + 2) n
           else q)
        else
          (if lessFn q (2 * i + 1) i then heapDownAux fuel (swapQ q i (2 * i + 1)) (2 * i + 1) n
           else q)
      else
        (if lessFn q (2 * i + 1) i then heapDownAux fuel (swapQ q i (2 * i + 1)) (2 * i + 1) n
         else q)
    else q

/-- container/heap `down`: sift position `i` towards the leaves within the
prefix of length `n`, choosing the lesser (here: higher-priority) child. -/
def heapDown (q : List Job) (i n : Nat) : List Job :=
  heapDownAux (n - i) q i n

/-- JobQueue.Push: append (index write omitted). -/
def pqPush (q : List Job) (job : Job) : List Job := q ++ [job]

/-- container/heap `Push`: append, then sift the new last element up. -/
def heapPush (q : List Job) (job : Job) : List Job :=
  let q1 := pqPush q job
  heapUp q1 (q1.length - 1)

/-- container/heap `Pop` composed with JobQueue.Pop: swap the root to the
end, sift the new root down over the first `n-1` positions, then remove and
return the last element.  The source never pops an empty heap (trySchedule
guards on `Len() > 0`); that case yields `none` here. -/
def heapPop (q : List Job) : Option (Job × List Job) :=
  match q with
  | [] => none
  | _ :: _ =>
    let n := q.length - 1
    let q1 := swapQ q 0 n
    let q2 := heapDown q1 0 n
    match q2.getLast? with
    | some job => some (job, q2.dropLast)
    | none => none

/-- Scheduler mirrors scheduler.Scheduler: the heap, the job registry map,
and the allocator it owns (mutex and tick channel omitted). -/
structure Scheduler where
  queue : List Job
  jobs : List (String × Job)
  alloc : GPUAllocator
deriving DecidableEq, Repr, Inhabited

/-- Registry lookup `s.jobs[id]`. -/
def lookupJob (jobs : List (String × Job)) (id : String) : Option Job :=
  (jobs.find? (fun p => p.1 == id)).map (fun p => p.2)

/-- Registry assignment `s.jobs[id] = job`. -/
def insertJob : List (String × Job) → String → Job → List (String × Job)
  | [], id, j => [(id, j)]
  | p :: rest, id, j => if p.1 == id then (id, j) :: rest else p :: insertJob rest id j

/-- Apply a field write to every heap entry holding the job with this id
(models the write through the shared `*Job` pointer). -/
def updateQueue (q : List Job) (id : String) (f : Job → Job) : List Job :=
  q.map (fun j => if j.ID == id then f j else j)

/-- A field write through the registry pointer: visible in the registry and
in every heap entry for that id. -/
def updateJob (s : Scheduler) (id : String) (f : Job → Job) : Scheduler :=
  { s with
    jobs := match lookupJob s.jobs id with
            | some j => insertJob s.jobs id (f j)
            | none => s.jobs
    queue := updateQueue s.queue id f }

/-- Submit mirrors Scheduler.Submit: assign an id if blank, force state to
`queued`, stamp CreatedAt, record in the registry and push onto the heap.
The source always returns nil error; the assigned id is returned here. -/
def Submit (s : Scheduler) (job : Job) (now : Nat) (freshID : String) : Scheduler × String :=
  let id := if job.ID == "" then freshID else job.ID
  let job' := { job with ID := id, State := JobState.queued, CreatedAt := now }
  ({ s with jobs := insertJob s.jobs id job', queue := heapPush s.queue job' }, id)

/-- Cancel mirrors Scheduler.Cancel: running jobs get their allocation
released (error ignored); then the state is set to `cancelled`
unconditionally.  The job is not removed from the heap and its `Alloc`
field is not cleared. -/
def Cancel (s : Scheduler) (jobID : String) : Except String Unit × Scheduler :=
  match lookupJob s.jobs jobID with
  | none => (Except.error "job not found", s)
  | some job =>
    let s1 :=
      if job.State = JobState.running then
        match job.Alloc with
        | some al => { s with alloc := (Release s.alloc al.ID).2 }
        | none => s
      else s
    (Except.ok (), updateJob s1 jobID (fun j => { j with State := JobState.cancelled }))

/-- The trailing "release resources" block shared by CompleteJob's
completed/failed paths. -/
def releaseJobAlloc (s : Scheduler) (job : Job) : Scheduler :=
  match job.Alloc with
  | some al => { s with alloc := (Release s.alloc al.ID).2 }
  | none => s

/-- CompleteJob mirrors Scheduler.CompleteJob.  CompletedAt is stamped in
every path.  On error with retries left: bump RetryCount, state `retrying`,
push back onto the heap — without releasing the allocation or clearing the
`Alloc` field.  Otherwise state `failed` (recording the error) or
`completed`, then release the allocation if the field is non-nil (the field
itself is never cleared). -/
def CompleteJob (s : Scheduler) (jobID : String) (err : Option String)
    (now : Nat) : Except String Unit × Scheduler :=
  match lookupJob s.jobs jobID with
  | none => (Except.error "job not found", s)
  | some job =>
    let job1 := { job with CompletedAt := some now }
    match err with
    | some msg =>
      if job1.RetryCount < job1.MaxRetries then
        let job2 := { job1 with RetryCount := job1.RetryCount + 1, State := JobState.retrying }
        let s2 := updateJob s jobID (fun _ => job2)
        (Except.ok (), { s2 with queue := heapPush s2.queue job2 })
      else
        let job2 := { job1 with State := JobState.failed, Error := msg }
        let s2 := updateJob s jobID (fun _ => job2)
        (Except.ok (), releaseJobAlloc s2 job2)
    | none =>
      let job2 := { job1 with State := JobState.completed }
      let s2 := updateJob s jobID (fun _ => job2)
      (Except.ok (), releaseJobAlloc s2 job2)

/-- The `for s.queue.Len() > 0` loop body of Scheduler.trySchedule: pop the
top job, try to allocate; on any error push the job back and stop; on
success mark it running (through the shared pointer) and continue.  Each
iteration removes one heap element and pushes only on the terminating error
branch, so `fuel = initial queue length` (supplied by `trySchedule`) is
never exhausted before the queue empties. -/
def tryScheduleLoop (s : Scheduler) (now : Nat) : Nat → Scheduler
  | 0 => s
  | fuel + 1 =>
    match heapPop s.queue with
    | none => s
    | some (job, q1) =>
      let r := Allocate s.alloc job.ID job.UserID job.Resources now
      match r.1 with
      | Except.error _ => { s with queue := heapPush q1 job, alloc := r.2 }
      | Except.ok al =>
        let job' := { job with Alloc := some al, State := JobState.running
                               StartedAt := some now }
        let s' := { s with
          queue := updateQueue q1 job.ID (fun _ => job')
          jobs := insertJob s.jobs job.ID job'
          alloc := r.2 }
        tryScheduleLoop s' now fuel

/-- trySchedule mirrors Scheduler.trySchedule: nothing to do on an empty
queue, else run the drain loop. -/
def trySchedule (s : Scheduler) (now : Nat) : Scheduler :=
  if s.queue.length = 0 then s
  else tryScheduleLoop s now s.queue.length

/-- Boolean success test on an Allocate result. -/
def isOkRes (r : Except String Allocation) : Bool :=
  match r with
  | Except.ok _ => true
  | Except.error _ => false

/-- The (only) quota condition Allocate checks, as a standalone predicate:
a quota record exists for the tenant and its GPU counter would overflow.
The source tests nothing else — in particular not the memory quota. -/
def quotaBlocks (a : GPUAllocator) (userID : String) (req : ResourceRequest) : Bool :=
  match a.quotas.find? (fun q => q.UserID == userID) with
  | some q => decide (q.MaxGPUs < q.UsedGPUs + req.GPUs)
  | none => false

/-! Helper lemmas about the association-list map operations. -/

theorem lookupNode_insertNode (ns : List Node) (n : Node) :
    lookupNode (insertNode ns n) n.ID = some n := by
  induction ns with
  | nil => simp [insertNode, lookupNode]
  | cons m rest ih =>
    by_cases h : m.ID == n.ID
    · simp [insertNode, lookupNode, h]
    · simp only [insertNode, h, if_false, Bool.false_eq_true]
      simpa [lookupNode, h] using ih

theorem lookupJob_insertJob (jobs : List (String × Job)) (id : String) (j : Job) :
    lookupJob (insertJob jobs id j) id = some j := by
  induction jobs with
  | nil => simp [insertJob, lookupJob]
  | cons p rest ih =>
    by_cases h : p.1 == id
    · simp [insertJob, lookupJob, h]
    · simp only [insertJob, h, if_false, Bool.false_eq_true]
      simpa [lookupJob, h] using ih

theorem find?_of_filter_out (l : List Allocation) (id : String) :
    (l.filter (fun al => !(al.ID == id))).find? (fun al => al.ID == id) = none := by
  rw [List.find?_eq_none]
  intro x hx
  have := List.of_mem_filter hx
  simpa using this

theorem lookupNode_map_preserving (ns : List Node) (id : String) (f : Node → Node)
    (hf : ∀ n, (f n).ID = n.ID) :
    lookupNode (ns.map f) id = (lookupNode ns id).map f := by
  unfold lookupNode
  rw [List.find?_map]
  have : ((fun n : Node => n.ID == id) ∘ f) = (fun n : Node => n.ID == id) := by
    funext n
    simp [Function.comp, hf]
  rw [this]

/-! Helper lemmas about Allocate. -/

theorem allocateScan_isSome_iff (jobID : String) (req : ResourceRequest) (now : Nat)
    (aid : String) (nodes : List Node) :
    (allocateScan jobID req now aid nodes).isSome = true ↔
      ∃ n ∈ nodes, n.Healthy = true ∧ req.GPUs ≤ ((findAvailableGPUs n req).length : Int) := by
  induction nodes with
  | nil => simp [allocateScan]
  | cons node rest ih =>
    by_cases h : node.Healthy = true ∧ req.GPUs ≤ ((findAvailableGPUs node req).length : Int)
    · simp [allocateScan, h]
    · simp [allocateScan, h, ih]

theorem allocateCommit_isOk (a : GPUAllocator) (jobID userID : String)
    (req : ResourceRequest) (now : Nat) :
    isOkRes (allocateCommit a jobID userID req now).1
      = (allocateScan jobID req now (allocFreshID a) a.nodes).isSome := by
  unfold allocateCommit
  cases hs : allocateScan jobID req now (allocFreshID a) a.nodes with
  | some p => cases p; simp [isOkRes]
  | none => simp [isOkRes]

theorem allocateCommit_error_frame (a : GPUAllocator) (jobID userID : String)
    (req : ResourceRequest) (now : Nat) (e : String)
    (h : (allocateCommit a jobID userID req now).1 = Except.error e) :
    (allocateCommit a jobID userID req now).2 = a := by
  unfold allocateCommit at h ⊢
  cases hs : allocateScan jobID req now (allocFreshID a) a.nodes with
  | some p =>
    rw [hs] at h
    cases p
    simp at h
  | none => rfl

/-- Success characterization of Allocate: it succeeds exactly when the GPU
quota pre-check passes and some healthy node has at least the requested
number of unallocated GPUs of the requested type.  Neither node free memory
nor free CPUs nor the memory quota enter the condition. -/
theorem Allocate_isOk_iff (a : GPUAllocator) (jobID userID : String)
    (req : ResourceRequest) (now : Nat) :
    isOkRes (Allocate a jobID userID req now).1 = true ↔
      quotaBlocks a userID req = false ∧
      ∃ n ∈ a.nodes, n.Healthy = true ∧ req.GPUs ≤ ((findAvailableGPUs n req).length : Int) := by
  unfold Allocate quotaBlocks
  cases hq : a.quotas.find? (fun q => q.UserID == userID) with
  | some quota =>
    by_cases hc : quota.MaxGPUs < quota.UsedGPUs + req.GPUs
    · simp [hc, isOkRes]
    · simp [hc, allocateCommit_isOk, allocateScan_isSome_iff]
  | none =>
    simp [allocateCommit_isOk, allocateScan_isSome_iff]

/-! Concrete fixtures used by the counterexamples and witnesses. -/

/-- A free A100 GPU on node `n1`. -/
def FxGPU1 : GPU :=
  { ID := "g1", NodeID := "n1", Ty := "A100", MemoryGB := 80
    Allocated := false, JobID := "", AllocAt := 0 }

/-- A node with one GPU, 512 GB memory, 64 CPUs (pre-registration). -/
def FxNode1 : Node :=
  { ID := "n1", Address := "10.0.0.1", GPUs := [FxGPU1], TotalMem := 512
    UsedMem := 0, TotalCPUs := 64, UsedCPUs := 0, Healthy := false, LastPing := 0 }

/-- A modest request: one GPU of any type, 64 GB, 8 CPUs. -/
def FxReq1 : ResourceRequest :=
  { GPUs := 1, GPUType := "", MemoryGB := 64, CPUs := 8, MaxWaitSecs := 0 }

/-- Job template for the scenarios. -/
def mkFxJob (id : String) (pri : Int) : Job :=
  { ID := id, UserID := "t1", Name := id, JobTy := "lora_train"
    State := JobState.pending, Priority := pri, Resources := FxReq1
    Alloc := none, RetryCount := 0, MaxRetries := 0, CreatedAt := 0
    StartedAt := none, CompletedAt := none, Error := "" }

/-- Cluster with node `n1` registered at tick 0. -/
def FxA0 : GPUAllocator := RegisterNode NewGPUAllocator FxNode1 0

/-- Empty scheduler over that cluster. -/
def FxS0 : Scheduler := { queue := [], jobs := [], alloc := FxA0 }

/-- Job `j1` as the registry and heap hold it right after `Submit` at tick 1. -/
def FxJ1q : Job := { mkFxJob "j1" 1 with State := JobState.queued, CreatedAt := 1 }

/-- Scheduler state after submitting `j1` at tick 1. -/
def FxS1 : Scheduler := (Submit FxS0 (mkFxJob "j1" 1) 1 "unused").1

/-- Scheduler state after then cancelling `j1`. -/
def FxS2 : Scheduler := (Cancel FxS1 "j1").2

/-- C1.  The claim says terminal states are absorbing and that a job
cancelled while queued is never later popped and set running.  In the
source, `Cancel` does not remove the job from the heap and `trySchedule`
pops and allocates jobs without looking at their state: after cancelling
the queued `j1`, one tick moves it from `cancelled` to `running`. -/
theorem c1_cancelled_job_set_running :
    (lookupJob FxS2.jobs "j1").map Job.State = some JobState.cancelled ∧
    (lookupJob (trySchedule FxS2 2).jobs "j1").map Job.State = some JobState.running := by
  constructor <;> rfl

/-- C1 (amended).  Cancel marks the job `cancelled` but leaves it in the
heap: the cancelled entry is still present in the queue (the queue length is
unchanged), from where a later tick can pop and run it. -/
theorem c1_cancel_leaves_job_in_queue (s : Scheduler) (jobID : String) (job j : Job)
    (hreg : lookupJob s.jobs jobID = some job)
    (hq : j ∈ s.queue) (hid : j.ID = jobID) :
    (∃ j' ∈ (Cancel s jobID).2.queue, j'.ID = jobID ∧ j'.State = JobState.cancelled) ∧
    (Cancel s jobID).2.queue.length = s.queue.length := by
  have hqueue : (Cancel s jobID).2.queue
      = updateQueue s.queue jobID (fun x => { x with State := JobState.cancelled }) := by
    unfold Cancel
    rw [hreg]
    by_cases hrun : job.State = JobState.running
    · simp only [hrun, reduceIte]
      cases job.Alloc <;> simp [updateJob]
    · simp only [hrun, reduceIte]
      simp [updateJob]
  constructor
  · refine ⟨{ j with State := JobState.cancelled }, ?_, by simpa using hid, rfl⟩
    rw [hqueue]
    unfold updateQueue
    refine List.mem_map.mpr ⟨j, hq, ?_⟩
    simp [hid]
  · rw [hqueue]
    unfold updateQueue
    simp

/-- C1 witness: the amended theorem applied to the concrete submitted job. -/
theorem c1_cancel_leaves_job_in_queue_witness :
    (∃ j' ∈ (Cancel FxS1 "j1").2.queue, j'.ID = "j1" ∧ j'.State = JobState.cancelled) ∧
    (Cancel FxS1 "j1").2.queue.length = FxS1.queue.length :=
  c1_cancel_leaves_job_in_queue FxS1 "j1" FxJ1q FxJ1q (by decide) (by decide) (by decide)

/-- Three equal-priority jobs with increasing creation times. -/
def FxJA : Job := { mkFxJob "A" 5 with CreatedAt := 1 }
def FxJB : Job := { mkFxJob "B" 5 with CreatedAt := 2 }
def FxJC : Job := { mkFxJob "C" 5 with CreatedAt := 3 }

/-- The heap after pushing A, then B, then C. -/
def Fxq3 : List Job := heapPush (heapPush (heapPush [] FxJA) FxJB) FxJC

/-- C7.  The claim says ties in priority are broken by older `created_at`
(FIFO within a priority level).  The source's `Less` compares only
`Priority`; pushing the equal-priority jobs A, B, C in that order and
popping yields A and then C — the younger C overtakes the older B. -/
theorem c7_equal_priority_not_fifo :
    FxJB.Priority = FxJC.Priority ∧ FxJB.CreatedAt < FxJC.CreatedAt ∧
    (heapPop Fxq3).map (fun p => p.1.ID) = some "A" ∧
    ((heapPop Fxq3).bind (fun p => heapPop p.2)).map (fun p => p.1.ID) = some "C" := by
  refine ⟨by decide, by decide, by decide, by decide⟩

/-- C7 (amended).  The queue is a max-heap keyed by `priority` alone:
`Less` never consults `created_at`, so between equal-priority entries the
comparison is false both ways and no FIFO tie-break exists. -/
theorem c7_less_ignores_creation_time (q : List Job) (i j : Nat)
    (h : (q.getD i default).Priority = (q.getD j default).Priority) :
    lessFn q i j = false ∧ lessFn q j i = false := by
  unfold lessFn
  rw [h]
  constructor <;> simp

/-- C7 witness: the amended theorem applied to two concrete equal-priority
jobs with different creation times. -/
theorem c7_less_ignores_creation_time_witness :
    lessFn [FxJB, FxJC] 0 1 = false ∧ lessFn [FxJB, FxJC] 1 0 = false :=
  c7_less_ignores_creation_time [FxJB, FxJC] 0 1 (by decide)

/-- A request far exceeding node n1's 512 GB total memory. -/
def FxReqBig : ResourceRequest :=
  { GPUs := 1, GPUType := "", MemoryGB := 10000, CPUs := 0, MaxWaitSecs := 0 }

/-- The zero request: no GPUs, no memory. -/
def FxReq0 : ResourceRequest :=
  { GPUs := 0, GPUType := "", MemoryGB := 0, CPUs := 0, MaxWaitSecs := 0 }

/-- C2.  The claim says a node with too little free memory or CPUs is
skipped, so charged memory never exceeds the node totals.  The source
checks only GPU availability: allocating 10000 GB on the 512 GB node
succeeds and leaves UsedMem = 10000 > TotalMem = 512. -/
theorem c2_memory_overcommitted :
    (lookupNode FxA0.nodes "n1").map Node.TotalMem = some 512 ∧
    isOkRes (Allocate FxA0 "jx" "t1" FxReqBig 5).1 = true ∧
    (Allocate FxA0 "jx" "t1" FxReqBig 5).2.nodes.map Node.UsedMem = [10000] := by
  refine ⟨rfl, rfl, rfl⟩

/-- C2 (amended).  Allocate skips a node only when it is unhealthy or has
fewer unallocated GPUs of the requested type than requested; free memory
and free CPUs are charged without any capacity check, so success is fully
characterized without mentioning memory or CPUs at all. -/
theorem c2_success_ignores_memory_and_cpus (a : GPUAllocator) (jobID userID : String)
    (req : ResourceRequest) (now : Nat) :
    isOkRes (Allocate a jobID userID req now).1 = true ↔
      quotaBlocks a userID req = false ∧
      ∃ n ∈ a.nodes, n.Healthy = true ∧ req.GPUs ≤ ((findAvailableGPUs n req).length : Int) :=
  Allocate_isOk_iff a jobID userID req now

/-- A quota with a tiny memory cap but a roomy GPU cap. -/
def FxQt1 : Quota :=
  { UserID := "t1", MaxGPUs := 10, MaxMemoryGB := 1, UsedGPUs := 0, UsedMemoryGB := 0 }

/-- The cluster with tenant t1 under FxQt1. -/
def FxA1 : GPUAllocator := { FxA0 with quotas := [FxQt1] }

/-- C3.  The claim says Allocate fails with QuotaExceeded whenever the
request would push in-use memory-GB above max memory-GB.  The source
pre-checks only the GPU counter: a 64 GB request against a 1 GB memory
quota succeeds and drives UsedMemoryGB to 64. -/
theorem c3_memory_quota_not_enforced :
    FxQt1.MaxMemoryGB = 1 ∧
    isOkRes (Allocate FxA1 "jm" "t1" FxReq1 5).1 = true ∧
    (Allocate FxA1 "jm" "t1" FxReq1 5).2.quotas.map Quota.UsedMemoryGB = [64] := by
  refine ⟨rfl, rfl, rfl⟩

/-- C3 (amended).  Only the GPU component of the quota is enforced: when a
tenant's quota record exists and the request would push its in-use GPUs
above max GPUs, Allocate fails with the quota error and leaves the state
unchanged.  No memory-quota check exists. -/
theorem c3_gpu_quota_precheck (a : GPUAllocator) (jobID userID : String)
    (req : ResourceRequest) (now : Nat) (q : Quota)
    (hq : a.quotas.find? (fun x => x.UserID == userID) = some q)
    (hover : q.MaxGPUs < q.UsedGPUs + req.GPUs) :
    Allocate a jobID userID req now = (Except.error "quota exceeded: GPU limit", a) := by
  unfold Allocate
  rw [hq]
  simp [hover]

/-- An exhausted quota: zero GPUs allowed. -/
def FxQtZero : Quota :=
  { UserID := "t1", MaxGPUs := 0, MaxMemoryGB := 0, UsedGPUs := 0, UsedMemoryGB := 0 }

/-- The cluster with tenant t1 fully blocked. -/
def FxA6 : GPUAllocator := { FxA0 with quotas := [FxQtZero] }

/-- C3 witness: the amended theorem applied to the blocked tenant. -/
theorem c3_gpu_quota_precheck_witness :
    Allocate FxA6 "w" "t1" FxReq1 9 = (Except.error "quota exceeded: GPU limit", FxA6) :=
  c3_gpu_quota_precheck FxA6 "w" "t1" FxReq1 9 FxQtZero (by decide) (by decide)

/-- C9.  The claim says a request with zero gpus and zero memory is
rejected early with InvalidRequest and creates no allocation.  The source
has no such check: the zero request succeeds on the first healthy node and
an allocation record is created. -/
theorem c9_zero_request_allocated :
    isOkRes (Allocate FxA0 "jz" "t1" FxReq0 5).1 = true ∧
    (Allocate FxA0 "jz" "t1" FxReq0 5).2.allocations.length = 1 := by
  refine ⟨rfl, rfl⟩

/-- C9 (amended).  Allocate performs no InvalidRequest rejection: whenever
the quota pre-check passes and any healthy node exists, the zero-GPU
request succeeds (every node trivially has at least zero eligible GPUs). -/
theorem c9_zero_request_not_rejected (a : GPUAllocator) (jobID userID : String)
    (req : ResourceRequest) (now : Nat)
    (hg : req.GPUs = 0)
    (hq : quotaBlocks a userID req = false)
    (hn : ∃ n ∈ a.nodes, n.Healthy = true) :
    isOkRes (Allocate a jobID userID req now).1 = true := by
  rcases hn with ⟨n, hmem, hh⟩
  rw [Allocate_isOk_iff]
  exact ⟨hq, n, hmem, hh, by omega⟩

/-- C9 witness: the amended theorem applied to the one-node cluster. -/
theorem c9_zero_request_not_rejected_witness :
    isOkRes (Allocate FxA0 "jz2" "t1" FxReq0 7).1 = true :=
  c9_zero_request_not_rejected FxA0 "jz2" "t1" FxReq0 7 (by decide) (by decide) (by decide)

/-- C10.  Allocate is atomic on failure: every error path returns the
allocator state exactly as it was.  (The quota pre-check path returns
before any write; the node loop writes nothing until a node fits.) -/
theorem c10_allocate_error_frame (a : GPUAllocator) (jobID userID : String)
    (req : ResourceRequest) (now : Nat) (e : String)
    (h : (Allocate a jobID userID req now).1 = Except.error e) :
    (Allocate a jobID userID req now).2 = a := by
  unfold Allocate at h ⊢
  cases hq : a.quotas.find? (fun q => q.UserID == userID) with
  | some quota =>
    rw [hq] at h
    dsimp only at h ⊢
    by_cases hc : quota.MaxGPUs < quota.UsedGPUs + req.GPUs
    · simp [hc]
    · rw [if_neg hc] at h ⊢
      exact allocateCommit_error_frame a jobID userID req now e h
  | none =>
    rw [hq] at h
    dsimp only at h ⊢
    exact allocateCommit_error_frame a jobID userID req now e h

/-- C10 witness: the theorem applied to the empty cluster, where Allocate
fails with no-suitable-node. -/
theorem c10_allocate_error_frame_witness :
    (Allocate NewGPUAllocator "j" "u" FxReq1 0).1 = Except.error "no suitable node found" ∧
    (Allocate NewGPUAllocator "j" "u" FxReq1 0).2 = NewGPUAllocator :=
  ⟨rfl, c10_allocate_error_frame NewGPUAllocator "j" "u" FxReq1 0 "no suitable node found" rfl⟩

/-- GPU g1 as it looks while held by job j4. -/
def FxGPU1Held : GPU := { FxGPU1 with Allocated := true, JobID := "j4", AllocAt := 5 }

/-- Node n1 while the j4 allocation is live on it. -/
def FxN4 : Node :=
  { FxNode1 with GPUs := [FxGPU1Held], UsedMem := 64, UsedCPUs := 8, Healthy := true }

/-- The live allocation for j4. -/
def FxAl4 : Allocation :=
  { ID := "alloc-0", JobID := "j4", NodeID := "n1", GPUIDs := ["g1"]
    MemoryGB := 64, CPUs := 8, CreatedAt := 5 }

/-- Tenant t1's quota as Allocate left it after charging the j4 request. -/
def FxQt1Used : Quota :=
  { UserID := "t1", MaxGPUs := 10, MaxMemoryGB := 100, UsedGPUs := 1, UsedMemoryGB := 64 }

/-- Cluster state with the j4 allocation live. -/
def FxA4 : GPUAllocator :=
  { nodes := [FxN4], allocations := [FxAl4], quotas := [FxQt1Used], nextAllocID := 1 }

/-- C4.  The claim says Release decrements the owning tenant's quota in-use
counters.  Releasing the live allocation succeeds but leaves the quota
record untouched at UsedGPUs = 1, UsedMemoryGB = 64. -/
theorem c4_release_keeps_quota_counters :
    (Release FxA4 "alloc-0").1 = Except.ok () ∧
    (Release FxA4 "alloc-0").2.quotas = [FxQt1Used] ∧
    FxQt1Used.UsedGPUs = 1 ∧ FxQt1Used.UsedMemoryGB = 64 := by
  refine ⟨rfl, rfl, rfl, rfl⟩

/-- C4 (amended).  Release on an existing allocation clears the listed
GPUs' flags on the owning node, decrements that node's used-memory and
used-CPU counters, and removes the allocation record — but never touches
the tenant quota counters (Release does not even know the tenant). -/
theorem c4_release_clears_node_not_quota (a : GPUAllocator) (allocID : String)
    (alloc : Allocation) (node : Node)
    (hal : a.allocations.find? (fun al => al.ID == allocID) = some alloc)
    (hnd : lookupNode a.nodes alloc.NodeID = some node) :
    (Release a allocID).1 = Except.ok () ∧
    (Release a allocID).2.quotas = a.quotas ∧
    (Release a allocID).2.allocations.find? (fun al => al.ID == allocID) = none ∧
    lookupNode (Release a allocID).2.nodes alloc.NodeID
      = some { node with
          GPUs := node.GPUs.map (fun g =>
            if alloc.GPUIDs.contains g.ID then { g with Allocated := false, JobID := "" }
            else g)
          UsedMem := node.UsedMem - alloc.MemoryGB
          UsedCPUs := node.UsedCPUs - alloc.CPUs } := by
  have hfID : ∀ n : Node,
      ((fun n : Node =>
        if n.ID == alloc.NodeID then
          { n with
            GPUs := n.GPUs.map (fun g =>
              if alloc.GPUIDs.contains g.ID then { g with Allocated := false, JobID := "" }
              else g)
            UsedMem := n.UsedMem - alloc.MemoryGB
            UsedCPUs := n.UsedCPUs - alloc.CPUs }
        else n) n).ID = n.ID := by
    intro n
    by_cases hh : n.ID == alloc.NodeID <;> simp [hh]
  have hpred : (node.ID == alloc.NodeID) = true := by
    have hnd' : a.nodes.find? (fun n => n.ID == alloc.NodeID) = some node := hnd
    have h2 := List.find?_some hnd'
    simpa using h2
  unfold Release
  rw [hal]
  dsimp only
  rw [hnd]
  dsimp only
  refine ⟨rfl, rfl, find?_of_filter_out _ _, ?_⟩
  rw [lookupNode_map_preserving a.nodes alloc.NodeID _ hfID, hnd]
  have hpred' : node.ID = alloc.NodeID := by simpa using hpred
  simp [hpred']

/-- C4 witness: the amended theorem applied to the concrete live
allocation. -/
theorem c4_release_clears_node_not_quota_witness :
    (Release FxA4 "alloc-0").1 = Except.ok () ∧
    (Release FxA4 "alloc-0").2.quotas = FxA4.quotas ∧
    (Release FxA4 "alloc-0").2.allocations.find? (fun al => al.ID == "alloc-0") = none ∧
    lookupNode (Release FxA4 "alloc-0").2.nodes FxAl4.NodeID
      = some { FxN4 with
          GPUs := FxN4.GPUs.map (fun g =>
            if FxAl4.GPUIDs.contains g.ID then { g with Allocated := false, JobID := "" }
            else g)
          UsedMem := FxN4.UsedMem - FxAl4.MemoryGB
          UsedCPUs := FxN4.UsedCPUs - FxAl4.CPUs } :=
  c4_release_clears_node_not_quota FxA4 "alloc-0" FxAl4 FxN4 (by decide) (by decide)

/-- Job jr, running with the j4 allocation and one retry left. -/
def FxJr : Job :=
  { mkFxJob "jr" 1 with State := JobState.running, Alloc := some FxAl4
                        MaxRetries := 1, StartedAt := some 2 }

/-- Scheduler with jr running on the FxA4 cluster. -/
def FxS5 : Scheduler := { queue := [], jobs := [("jr", FxJr)], alloc := FxA4 }

/-- Scheduler after jr's completion callback reports an error at tick 3. -/
def FxS5e : Scheduler := (CompleteJob FxS5 "jr" (some "oom") 3).2

/-- C5.  The claim says a job entering `retrying` (and a cancelled running
job) ends with a nil Allocation and no live allocation bound to it.  In
the source the retry path neither clears the `Allocation` field nor calls
Release, and Cancel releases but never clears the field: after the failure
callback jr is `retrying` with its Allocation still set and the allocation
still live; after Cancel the field is likewise still set. -/
theorem c5_retrying_job_keeps_allocation :
    (lookupJob FxS5e.jobs "jr").map Job.State = some JobState.retrying ∧
    (lookupJob FxS5e.jobs "jr").map (fun j => j.Alloc.isSome) = some true ∧
    FxS5e.alloc.allocations.length = 1 ∧
    (lookupJob (Cancel FxS5 "jr").2.jobs "jr").map (fun j => j.Alloc.isSome) = some true := by
  refine ⟨rfl, rfl, rfl, rfl⟩

/-- C5 (amended).  When a completion callback carries an error and the job
has retries left, the job moves to `retrying` while keeping its Allocation
field exactly as it was, and the allocator state is not touched at all (no
release happens). -/
theorem c5_retry_path_no_release (s : Scheduler) (jobID : String) (job : Job)
    (msg : String) (now : Nat)
    (hreg : lookupJob s.jobs jobID = some job)
    (hr : job.RetryCount < job.MaxRetries) :
    (lookupJob (CompleteJob s jobID (some msg) now).2.jobs jobID).map Job.State
      = some JobState.retrying ∧
    (lookupJob (CompleteJob s jobID (some msg) now).2.jobs jobID).map Job.Alloc
      = some job.Alloc ∧
    (CompleteJob s jobID (some msg) now).2.alloc = s.alloc := by
  unfold CompleteJob
  rw [hreg]
  dsimp only
  rw [if_pos hr]
  simp [updateJob, hreg, lookupJob_insertJob]

/-- C5 witness: the amended theorem applied to the running jr. -/
theorem c5_retry_path_no_release_witness :
    (lookupJob (CompleteJob FxS5 "jr" (some "oom") 3).2.jobs "jr").map Job.State
      = some JobState.retrying ∧
    (lookupJob (CompleteJob FxS5 "jr" (some "oom") 3).2.jobs "jr").map Job.Alloc
      = some FxJr.Alloc ∧
    (CompleteJob FxS5 "jr" (some "oom") 3).2.alloc = FxS5.alloc :=
  c5_retry_path_no_release FxS5 "jr" FxJr "oom" 3 (by decide) (by decide)

/-- Scheduler holding the blocked tenant's high-priority job j1q and tenant
t2's allocatable job j2q, on the cluster where t1's quota is exhausted. -/
def FxS6 : Scheduler :=
  (Submit
    (Submit { queue := [], jobs := [], alloc := FxA6 } (mkFxJob "j1q" 5) 1 "u").1
    { mkFxJob "j2q" 1 with UserID := "t2" } 2 "u").1

/-- FxS6 after one scheduling tick. -/
def FxS6t : Scheduler := trySchedule FxS6 3

/-- C6.  The claim says a QuotaExceeded failure re-queues the job and
continues with the next one, so one tenant over quota never prevents other
tenants' jobs from being tried in the same tick.  In the source any error
breaks the loop: t1's quota-blocked j1q stops the tick and t2's j2q stays
queued, even though allocating it would succeed. -/
theorem c6_quota_error_blocks_other_tenants :
    (lookupJob FxS6t.jobs "j2q").map Job.State = some JobState.queued ∧
    isOkRes (Allocate FxS6t.alloc "j2q" "t2" FxReq1 4).1 = true := by
  refine ⟨rfl, rfl⟩

/-- C6 (amended).  Any allocation failure — QuotaExceeded included — makes
the tick push the popped job back and stop immediately: the resulting state
is exactly the input state with the job re-pushed (and the allocator
threaded through unchanged, failures being state-preserving). -/
theorem c6_any_error_stops_tick (s : Scheduler) (now : Nat) (job : Job)
    (q1 : List Job) (e : String)
    (hpop : heapPop s.queue = some (job, q1))
    (herr : (Allocate s.alloc job.ID job.UserID job.Resources now).1 = Except.error e) :
    trySchedule s now =
      { s with queue := heapPush q1 job
               alloc := (Allocate s.alloc job.ID job.UserID job.Resources now).2 } := by
  have hne : s.queue.length ≠ 0 := by
    intro h0
    rw [List.length_eq_zero] at h0
    rw [h0] at hpop
    simp [heapPop] at hpop
  obtain ⟨m, hm⟩ := Nat.exists_eq_succ_of_ne_zero hne
  unfold trySchedule
  rw [if_neg hne, hm]
  simp only [tryScheduleLoop, hpop, herr]

/-- A queued job for the C6 witness. -/
def FxJW : Job := { mkFxJob "jW" 1 with State := JobState.queued }

/-- A one-job scheduler over the empty cluster (Allocate must fail). -/
def FxSW : Scheduler := { queue := [FxJW], jobs := [("jW", FxJW)], alloc := NewGPUAllocator }

/-- C6 witness: the amended theorem applied to the one-job scheduler. -/
theorem c6_any_error_stops_tick_witness :
    trySchedule FxSW 0 =
      { FxSW with queue := heapPush [] FxJW
                  alloc := (Allocate FxSW.alloc FxJW.ID FxJW.UserID FxJW.Resources 0).2 } :=
  c6_any_error_stops_tick FxSW 0 FxJW [] "no suitable node found" (by decide) rfl

/-- Node n1 as held in inventory while its GPU is leased: flag set,
memory charged. -/
def FxNode1Used : Node :=
  { FxNode1 with GPUs := [{ FxGPU1 with Allocated := true, JobID := "j9" }]
                 UsedMem := 64, Healthy := true }

/-- Inventory holding the leased n1. -/
def FxA8 : GPUAllocator := { NewGPUAllocator with nodes := [FxNode1Used] }

/-- C8.  The claim says re-registering an existing node preserves the
accelerators' allocation flags and used counters.  The source's
RegisterNode overwrites the map entry with the submitted record: after a
restarted agent re-registers with a fresh record, the held GPU reads
unallocated and the used-memory counter reads 0. -/
theorem c8_reregister_drops_flags :
    (lookupNode FxA8.nodes "n1").map (fun n => n.GPUs.map GPU.Allocated) = some [true] ∧
    (lookupNode (RegisterNode FxA8 FxNode1 7).nodes "n1").map
        (fun n => n.GPUs.map GPU.Allocated) = some [false] ∧
    (lookupNode FxA8.nodes "n1").map Node.UsedMem = some 64 ∧
    (lookupNode (RegisterNode FxA8 FxNode1 7).nodes "n1").map Node.UsedMem = some 0 := by
  refine ⟨rfl, rfl, rfl, rfl⟩

/-- C8 (amended).  RegisterNode stores exactly the record it is given
(healthy, freshly stamped) under its id, replacing any previous record:
inventory after re-registration reflects the submitted record's flags and
counters, not the previous ones. -/
theorem c8_register_stores_given_record (a : GPUAllocator) (node : Node) (now : Nat) :
    lookupNode (RegisterNode a node now).nodes node.ID
      = some { node with Healthy := true, LastPing := now } := by
  unfold RegisterNode
  exact lookupNode_insertNode a.nodes _

end OpenLoRA
